import Mathlib

/-!
Verification of the decode-and-map core of a GNSS telemetry bridge
(`src/main.rs`). The program fetches an XML status document from a GNSS
receiver, deserializes it into a flat `Gnss` record, and maps each free-text
field onto a Prometheus gauge via small field parsers.

The embedding works over `List Char` in place of Rust `&str` (the inputs of
interest are ASCII, so byte indices and char indices coincide), over `Int`
with explicit range checks in place of `i64`, and over `ℚ` in place of `f64`:
every `f64` operation the program performs (decimal literal parsing, division
by the constants 60, 1000, 3600, addition, negation) is modelled by the exact
rational operation. Non-finite `f64` inputs ("inf"/"nan"), which the rational
model cannot represent, are treated as parse failures; no claim touches them.

Fallible Rust functions returning `anyhow::Result` are modelled with `Option`
(`none` = the error case) except `parse_lat_long`, which can also panic
(`split_at` with an out-of-range index): its result type `PResult` keeps the
panic outcome distinct from the error outcome.
-/

namespace GnssExporter

/-! ## Character and digit primitives -/

/-- Numeric value of an ASCII digit character, `none` on any other character.
Mirrors the per-character acceptance of Rust's integer `FromStr`. -/
def digitVal (c : Char) : Option Nat :=
  if '0' ≤ c ∧ c ≤ '9' then some (c.toNat - 48) else none

/-- Left fold of `digitVal` with an accumulator: the value of a digit string
being consumed left to right, failing on the first non-digit. This is the
digit-consuming loop inside Rust's `i64::from_str`. -/
def parseNatAux (acc : Nat) : List Char → Option Nat
  | [] => some acc
  | c :: cs =>
    match digitVal c with
    | some d => parseNatAux (acc * 10 + d) cs
    | none => none

/-- A nonempty all-digit string parsed to a `Nat`; `none` when empty or when
any character is not a digit. -/
def parseNatDigits (s : List Char) : Option Nat :=
  match s with
  | [] => none
  | _ :: _ => parseNatAux 0 s

/-- Rust `i64::from_str`: an optional single sign, then at least one digit,
rejected when the value falls outside the `i64` range. (Rust checks overflow
incrementally; accepting the full digit value and then range-checking accepts
and rejects exactly the same strings.) -/
def parseI64 (s : List Char) : Option Int :=
  match s with
  | [] => none
  | c :: rest =>
    if c = '+' then
      (parseNatDigits rest).bind fun n =>
        if n ≤ 2 ^ 63 - 1 then some (n : Int) else none
    else if c = '-' then
      (parseNatDigits rest).bind fun n =>
        if n ≤ 2 ^ 63 then some (-(n : Int)) else none
    else
      (parseNatDigits (c :: rest)).bind fun n =>
        if n ≤ 2 ^ 63 - 1 then some (n : Int) else none

/-- Decimal digit characters of a natural number, most significant first:
Rust's `Display` for an unsigned value. -/
def natToChars (n : Nat) : List Char :=
  if _h : n < 10 then [Char.ofNat (48 + n)]
  else natToChars (n / 10) ++ [Char.ofNat (48 + n % 10)]
termination_by n
decreasing_by
  exact Nat.div_lt_self (by omega) (by omega)

/-- Rust's `Display` for `i64`: a minus sign before the magnitude when
negative, plain digits otherwise. -/
def fmtInt (i : Int) : List Char :=
  if i < 0 then '-' :: natToChars i.natAbs else natToChars i.toNat

/-- Rust `str::split_once(c)`: splits at the first occurrence of `c`,
returning the parts before and after it, `none` when `c` does not occur. -/
def splitOnce (c : Char) : List Char → Option (List Char × List Char)
  | [] => none
  | x :: xs =>
    if x = c then some ([], xs)
    else (splitOnce c xs).map fun p => (x :: p.1, p.2)

/-- Value of a string of digit characters (used only on strings that
`takeWhile Char.isDigit` produced, so every character is a digit). -/
def digitsVal (s : List Char) : Nat :=
  s.foldl (fun acc c => acc * 10 + (c.toNat - 48)) 0

/-! ## Rust `f64::from_str`, modelled exactly over `ℚ`

Grammar (per the Rust standard library documentation):
`[sign] (digits | digits . [digits] | [digits] . digits) [(e|E) [sign] digits]`,
plus the non-finite spellings `inf`, `infinity`, `nan`, which the rational
model maps to `none` (see the header comment). The numeric value of an
accepted finite literal is computed exactly, with no rounding. -/

/-- Exponent part after the `e`/`E`: optional sign, then a nonempty run of
digits filling the rest of the input. -/
def parseExpPart (s : List Char) : Option Int :=
  match s with
  | '+' :: r => if r ≠ [] ∧ r.all Char.isDigit then some (digitsVal r : Int) else none
  | '-' :: r => if r ≠ [] ∧ r.all Char.isDigit then some (-(digitsVal r : Int)) else none
  | r => if r ≠ [] ∧ r.all Char.isDigit then some (digitsVal r : Int) else none

/-- Unsigned part of a float literal: integer digits, optional point and
fraction digits (at least one digit overall), optional exponent, nothing
trailing. -/
def parseF64Body (s : List Char) : Option ℚ :=
  let ip := s.takeWhile Char.isDigit
  let r1 := s.dropWhile Char.isDigit
  let fpr :=
    match r1 with
    | '.' :: r => (r.takeWhile Char.isDigit, r.dropWhile Char.isDigit)
    | _ => ([], r1)
  if ip = [] ∧ fpr.1 = [] then none
  else
    let mant : ℚ := (digitsVal ip : ℚ) + (digitsVal fpr.1 : ℚ) / 10 ^ fpr.1.length
    match fpr.2 with
    | [] => some mant
    | 'e' :: r3 => (parseExpPart r3).map fun e => mant * 10 ^ e
    | 'E' :: r3 => (parseExpPart r3).map fun e => mant * 10 ^ e
    | _ => none

/-- Rust `f64::from_str` on finite decimal literals, exact over `ℚ`. -/
def parseF64 (s : List Char) : Option ℚ :=
  match s with
  | '+' :: r => parseF64Body r
  | '-' :: r => (parseF64Body r).map Neg.neg
  | r => parseF64Body r

/-! ## The field parsers (`src/main.rs` lines 193–218) -/

/-- Outcome of a Rust computation that can return `Ok`, return `Err`
(`MalformedField` in the spec's taxonomy), or panic. -/
inductive PResult (α : Type) where
  | ok : α → PResult α
  | err : PResult α
  | panic : PResult α
  deriving DecidableEq

/-- Negation mapped through a `PResult`, used to state how the S/W hemisphere
result relates to the N/E result. -/
def pneg : PResult ℚ → PResult ℚ
  | .ok x => .ok (-x)
  | .err => .err
  | .panic => .panic

/-- The hemisphere `match` at `src/main.rs:203-207`: `"N" | "E"` give `+1.`,
`"S" | "W"` give `-1.`, anything else is the `MalformedField` error arm. -/
def hemiSign (dir : List Char) : Option ℚ :=
  if dir = String.toList "N" ∨ dir = String.toList "E" then some 1
  else if dir = String.toList "S" ∨ dir = String.toList "W" then some (-1)
  else none

/-- Everything `parse_lat_long` does after the sign is fixed
(`src/main.rs:209-217`): split the value at the first `.`; `split_at` the
integer part two characters before its end — Rust computes the index as
`dec_min.len() - 2` in `usize`, so an integer part shorter than two
characters underflows and `split_at` panics; parse the three segments as
`f64`; scale the fraction by `/ 1000.0` to get seconds; combine as
`sign * (deg + min/60 + sec/3600)`. -/
def magPart (sign : ℚ) (val : List Char) : PResult ℚ :=
  match splitOnce '.' val with
  | none => .err
  | some (dec_min, sec) =>
    if dec_min.length < 2 then .panic
    else
      let dec := dec_min.take (dec_min.length - 2)
      let mins := dec_min.drop (dec_min.length - 2)
      match parseF64 dec with
      | none => .err
      | some d =>
        match parseF64 mins with
        | none => .err
        | some m =>
          match parseF64 sec with
          | none => .err
          | some s => .ok (sign * (d + m / 60 + s / 1000 / 3600))

/-- `parse_lat_long` (`src/main.rs:201-218`): split `"<hemisphere> <value>"`
at the first space, map the hemisphere to a sign, then decode the value part
(`magPart`). -/
def parse_lat_long (v : List Char) : PResult ℚ :=
  match splitOnce ' ' v with
  | none => .err
  | some (dir, val) =>
    match hemiSign dir with
    | none => .err
    | some sign => magPart sign val

/-- `parse_used_seen` (`src/main.rs:193-199`): split `"<used>/<seen>"` at the
first `/` (error when absent), parse both sides as `i64` (error when either
fails). -/
def parse_used_seen (v : List Char) : Option (Int × Int) :=
  match splitOnce '/' v with
  | none => none
  | some (u, s) =>
    match parseI64 u, parseI64 s with
    | some a, some b => some (a, b)
    | _, _ => none

/-- The antenna `match` at `src/main.rs:159-163`: `"OPEN"` → 0, `"OK"` → 1,
everything else → 2. Total: the wildcard arm makes it never fail. -/
def antennaCode (ant : List Char) : Int :=
  if ant = String.toList "OPEN" then 0
  else if ant = String.toList "OK" then 1
  else 2

/-! ## `trim_end_matches` -/

/-- Drops `p` from the front of `l` when it is literally there, `none`
otherwise. -/
def dropExact : List Char → List Char → Option (List Char)
  | [], l => some l
  | _ :: _, [] => none
  | c :: p, x :: l => if x = c then dropExact p l else none

/-- Repeatedly strip the pattern from the front, fuel-bounded. A nonempty
pattern removes at least one character per round, so fuel equal to the string
length never runs out before the string does; an empty pattern strips
nothing, as in Rust. -/
def stripRepFuel (p : List Char) : Nat → List Char → List Char
  | 0, l => l
  | fuel + 1, l =>
    match dropExact p l with
    | some l' => if p = [] then l else stripRepFuel p fuel l'
    | none => l

/-- Rust `str::trim_end_matches(pat)`: repeatedly removes the suffix `pat`
while it matches. Implemented on the reversed string. -/
def trimEndMatches (pat s : List Char) : List Char :=
  (stripRepFuel pat.reverse s.length s.reverse).reverse

/-! ## The data model (`src/main.rs` lines 18–47) -/

/-- The `Gnss` record (`src/main.rs:36-47`): the receiver-status document
deserialized by serde. `svused` is declared `i64` (not `Option<i64>`), every
other field is a raw string. -/
structure Gnss where
  ant : List Char
  svused : Int
  gpsinfo : List Char
  bdinfo : List Char
  glinfo : List Char
  lat : List Char
  long : List Char
  alt : List Char
  deriving DecidableEq

/-- The gauge values held in `MetricState` (`src/main.rs:18-34`), the only
state `update_metrics` mutates. Integer gauges are `Int`, float gauges `ℚ`.
Prometheus gauges start at 0. -/
structure MetricState where
  ant : Int
  sv : Int
  gps_used : Int
  gps_seen : Int
  bd_used : Int
  bd_seen : Int
  gl_used : Int
  gl_seen : Int
  lat : ℚ
  long : ℚ
  alt : ℚ
  deriving DecidableEq

/-! ## `update_metrics` (`src/main.rs:158-191`)

The Rust function mutates gauges in place, top to bottom; the embedding
threads the state explicitly in the same order. `parse_lat_long` can panic,
which aborts the whole call (and skips the altitude step), so the composed
function returns `Option MetricState` with `none` for the panic outcome. -/

/-- Lines 159–180: set the antenna code and `svused` unconditionally, then
each constellation's used/seen pair when (and only when) its field parses —
each in its own independent `if let`. -/
def countsPhase (metric : MetricState) (gnss : Gnss) : MetricState :=
  let m1 := { metric with ant := antennaCode gnss.ant, sv := gnss.svused }
  let m2 :=
    match parse_used_seen gnss.gpsinfo with
    | some p => { m1 with gps_used := p.1, gps_seen := p.2 }
    | none => m1
  let m3 :=
    match parse_used_seen gnss.bdinfo with
    | some p => { m2 with bd_used := p.1, bd_seen := p.2 }
    | none => m2
  match parse_used_seen gnss.glinfo with
  | some p => { m3 with gl_used := p.1, gl_seen := p.2 }
  | none => m3

/-- Lines 182–185: `parse_lat_long(&gnss.lat).and_then(|lat| Ok((lat,
parse_lat_long(&gnss.long)?)))` — the longitude string is parsed only when
the latitude string parsed, an `Err` from either leaves both gauges
untouched, and both gauges are set together on success. A panic in either
parse propagates (`none`). -/
def latLongStep (m : MetricState) (latStr longStr : List Char) : Option MetricState :=
  match parse_lat_long latStr with
  | .panic => none
  | .err => some m
  | .ok la =>
    match parse_lat_long longStr with
    | .panic => none
    | .err => some m
    | .ok lo => some { m with lat := la, long := lo }

/-- Lines 187–190: strip the `" m"` suffix, set the altitude gauge when the
remainder parses as `f64`, silently keep the old value otherwise. -/
def altStep (m : MetricState) (altStr : List Char) : MetricState :=
  match parseF64 (trimEndMatches (String.toList " m") altStr) with
  | some a => { m with alt := a }
  | none => m

/-- `update_metrics` (`src/main.rs:158-191`): the three phases in source
order. `none` means the call panicked inside `parse_lat_long`. -/
def update_metrics (metric : MetricState) (gnss : Gnss) : Option MetricState :=
  (latLongStep (countsPhase metric gnss) gnss.lat gnss.long).map fun m =>
    altStep m gnss.alt

/-! ## Deserialization and the request path (`src/main.rs:111-156`) -/

/-- First value bound to a field name in the deserialized document, viewed as
a list of (element name, text content) pairs. -/
def lookupField : List (List Char × List Char) → List Char → Option (List Char)
  | [], _ => none
  | (k, v) :: rest, name => if k = name then some v else lookupField rest name

/-- The serde `Deserialize` derive on `Gnss` (`src/main.rs:36-47`), over the
flat field map of the XML document: every declared field is required — none
is `Option` and none has a default — so a missing field is a
`DeserializeError` (`none`), and `svused` must additionally convert to `i64`.
-/
def gnssFromFields (fields : List (List Char × List Char)) : Option Gnss :=
  match lookupField fields (String.toList "ant"),
      lookupField fields (String.toList "svused"),
      lookupField fields (String.toList "gpsinfo"),
      lookupField fields (String.toList "bdinfo"),
      lookupField fields (String.toList "glinfo"),
      lookupField fields (String.toList "lat"),
      lookupField fields (String.toList "long"),
      lookupField fields (String.toList "alt") with
  | some a, some sv, some gps, some bd, some gl, some la, some lo, some al =>
    match parseI64 sv with
    | some n => some ⟨a, n, gps, bd, gl, la, lo, al⟩
    | none => none
  | _, _, _, _, _, _, _, _ => none

/-- The decode-and-update portion of `handler` (`src/main.rs:111-136`) on an
already-fetched document: `read_gnss(..).expect("failed to read GNSS XML")`
panics the request when deserialization fails, and a panic inside
`update_metrics` likewise aborts the request, so both abort paths are `none`.
-/
def handler (m : MetricState) (doc : List (List Char × List Char)) : Option MetricState :=
  match gnssFromFields doc with
  | none => none
  | some gnss => update_metrics m gnss

/-- All-zero gauge state: the registered Prometheus gauges before any scrape.
-/
def m0 : MetricState := ⟨0, 0, 0, 0, 0, 0, 0, 0, 0, 0, 0⟩

/-! ## Digit-string lemmas

Scaffolding for the used/seen round trip: formatting an integer and parsing
it back is the identity on the `i64` range. -/

theorem natToChars_of_lt {n : Nat} (h : n < 10) :
    natToChars n = [Char.ofNat (48 + n)] := by
  rw [natToChars]
  simp [h]

theorem natToChars_of_ge {n : Nat} (h : 10 ≤ n) :
    natToChars n = natToChars (n / 10) ++ [Char.ofNat (48 + n % 10)] := by
  rw [natToChars]
  simp [Nat.not_lt.mpr h]

theorem digitVal_ofNat {d : Nat} (h : d < 10) :
    digitVal (Char.ofNat (48 + d)) = some d := by
  interval_cases d <;> decide

/-- A decimal digit character is none of the separator or sign characters the
parsers treat specially. -/
theorem digitChar_ne {d : Nat} (h : d < 10) :
    Char.ofNat (48 + d) ≠ '+' ∧ Char.ofNat (48 + d) ≠ '-' ∧
      Char.ofNat (48 + d) ≠ '/' ∧ Char.ofNat (48 + d) ≠ ' ' := by
  interval_cases d <;> decide

theorem parseNatAux_append (xs ys : List Char) :
    ∀ acc, parseNatAux acc (xs ++ ys) =
      (parseNatAux acc xs).bind fun m => parseNatAux m ys := by
  induction xs with
  | nil => intro acc; simp [parseNatAux]
  | cons c cs ih =>
    intro acc
    simp only [List.cons_append, parseNatAux]
    cases digitVal c <;> simp [ih]

theorem parseNatAux_natToChars (n : Nat) : ∀ acc : Nat,
    parseNatAux acc (natToChars n) = some (acc * 10 ^ (natToChars n).length + n) := by
  induction n using Nat.strong_induction_on with
  | _ n ih =>
    intro acc
    by_cases h : n < 10
    · rw [natToChars_of_lt h]
      simp [parseNatAux, digitVal_ofNat h]
    · rw [natToChars_of_ge (le_of_not_lt h)]
      rw [parseNatAux_append, ih (n / 10) (Nat.div_lt_self (by omega) (by omega)) acc]
      simp only [Option.some_bind, parseNatAux, digitVal_ofNat (Nat.mod_lt n (by omega)),
        List.length_append, List.length_cons, List.length_nil]
      congr 1
      calc (acc * 10 ^ (natToChars (n / 10)).length + n / 10) * 10 + n % 10
          = acc * (10 ^ (natToChars (n / 10)).length * 10) + (10 * (n / 10) + n % 10) := by
            ring
        _ = acc * 10 ^ ((natToChars (n / 10)).length + 1) + n := by
            rw [pow_succ, Nat.div_add_mod]

theorem natToChars_head (n : Nat) :
    ∃ d rest, d < 10 ∧ natToChars n = Char.ofNat (48 + d) :: rest := by
  induction n using Nat.strong_induction_on with
  | _ n ih =>
    by_cases h : n < 10
    · exact ⟨n, [], h, natToChars_of_lt h⟩
    · obtain ⟨d, rest, hd, heq⟩ := ih (n / 10) (Nat.div_lt_self (by omega) (by omega))
      refine ⟨d, rest ++ [Char.ofNat (48 + n % 10)], hd, ?_⟩
      rw [natToChars_of_ge (le_of_not_lt h), heq]
      simp

theorem mem_natToChars (n : Nat) : ∀ c ∈ natToChars n,
    ∃ d, d < 10 ∧ c = Char.ofNat (48 + d) := by
  induction n using Nat.strong_induction_on with
  | _ n ih =>
    intro c hc
    by_cases h : n < 10
    · rw [natToChars_of_lt h] at hc
      simp at hc
      exact ⟨n, h, hc⟩
    · rw [natToChars_of_ge (le_of_not_lt h)] at hc
      rcases List.mem_append.mp hc with h1 | h2
      · exact ih (n / 10) (Nat.div_lt_self (by omega) (by omega)) c h1
      · simp at h2
        exact ⟨n % 10, Nat.mod_lt _ (by omega), h2⟩

theorem parseNatDigits_natToChars (n : Nat) :
    parseNatDigits (natToChars n) = some n := by
  have h := parseNatAux_natToChars n 0
  obtain ⟨d, rest, _, heq⟩ := natToChars_head n
  rw [heq] at h ⊢
  simpa [parseNatDigits] using h

/-- Parsing undoes formatting for every `i64` value. -/
theorem parseI64_fmtInt (u : Int) (h1 : -(2 ^ 63) ≤ u) (h2 : u ≤ 2 ^ 63 - 1) :
    parseI64 (fmtInt u) = some u := by
  by_cases hneg : u < 0
  · rw [fmtInt, if_pos hneg]
    simp only [parseI64]
    rw [if_neg (by decide : ('-' : Char) ≠ '+'), if_pos trivial, parseNatDigits_natToChars]
    simp only [Option.some_bind]
    rw [if_pos (by omega)]
    congr 1
    omega
  · push_neg at hneg
    rw [fmtInt, if_neg (not_lt.mpr hneg)]
    obtain ⟨d, rest, hd, heq⟩ := natToChars_head u.toNat
    rw [heq]
    simp only [parseI64]
    rw [if_neg (digitChar_ne hd).1, if_neg (digitChar_ne hd).2.1, ← heq,
      parseNatDigits_natToChars]
    simp only [Option.some_bind]
    rw [if_pos (by omega)]
    congr 1
    omega

theorem slash_not_mem_fmtInt (i : Int) : '/' ∉ fmtInt i := by
  intro hmem
  rw [fmtInt] at hmem
  by_cases h : i < 0 <;> simp [h] at hmem
  · obtain ⟨d, hd, hc⟩ := mem_natToChars _ _ hmem
    exact (digitChar_ne hd).2.2.1 hc.symm
  · obtain ⟨d, hd, hc⟩ := mem_natToChars _ _ hmem
    exact (digitChar_ne hd).2.2.1 hc.symm

theorem splitOnce_append {c : Char} : ∀ {xs : List Char}, c ∉ xs → ∀ ys,
    splitOnce c (xs ++ c :: ys) = some (xs, ys) := by
  intro xs
  induction xs with
  | nil => intro _ ys; simp [splitOnce]
  | cons x l ih =>
    intro h ys
    simp only [List.mem_cons, not_or] at h
    have hx : ¬x = c := fun he => h.1 he.symm
    simp [splitOnce, hx, ih h.2 ys]

/-! ## Structure lemmas about the orchestrator phases -/

/-- A successful `latLongStep` either left the state alone (and one of the
two parses returned the error outcome) or wrote exactly the two parsed
values. -/
theorem latLongStep_spec (m : MetricState) (a b : List Char) (m' : MetricState)
    (h : latLongStep m a b = some m') :
    (m' = m ∧ (parse_lat_long a = .err ∨ parse_lat_long b = .err)) ∨
      ∃ x y, parse_lat_long a = .ok x ∧ parse_lat_long b = .ok y ∧
        m' = { m with lat := x, long := y } := by
  unfold latLongStep at h
  rcases ha : parse_lat_long a with x | _ | _ <;> rw [ha] at h
  · rcases hb : parse_lat_long b with y | _ | _ <;> rw [hb] at h
    · exact .inr ⟨x, y, rfl, rfl, (Option.some.injEq _ _ ▸ h).symm⟩
    · exact .inl ⟨(Option.some.injEq _ _ ▸ h).symm, .inr rfl⟩
    · exact absurd h (by simp)
  · exact .inl ⟨(Option.some.injEq _ _ ▸ h).symm, .inl rfl⟩
  · exact absurd h (by simp)

/-- `altStep` writes the parsed altitude or nothing. -/
theorem altStep_spec (m : MetricState) (a : List Char) :
    (parseF64 (trimEndMatches (String.toList " m") a) = none ∧ altStep m a = m) ∨
      ∃ q, parseF64 (trimEndMatches (String.toList " m") a) = some q ∧
        altStep m a = { m with alt := q } := by
  rcases h : parseF64 (trimEndMatches (String.toList " m") a) with _ | q
  · exact .inl ⟨rfl, by unfold altStep; rw [h]⟩
  · exact .inr ⟨q, rfl, by unfold altStep; rw [h]⟩

theorem countsPhase_lat (m : MetricState) (g : Gnss) :
    (countsPhase m g).lat = m.lat := by
  simp only [countsPhase]
  cases parse_used_seen g.gpsinfo <;> cases parse_used_seen g.bdinfo <;>
    cases parse_used_seen g.glinfo <;> rfl

theorem countsPhase_long (m : MetricState) (g : Gnss) :
    (countsPhase m g).long = m.long := by
  simp only [countsPhase]
  cases parse_used_seen g.gpsinfo <;> cases parse_used_seen g.bdinfo <;>
    cases parse_used_seen g.glinfo <;> rfl

theorem countsPhase_alt (m : MetricState) (g : Gnss) :
    (countsPhase m g).alt = m.alt := by
  simp only [countsPhase]
  cases parse_used_seen g.gpsinfo <;> cases parse_used_seen g.bdinfo <;>
    cases parse_used_seen g.glinfo <;> rfl

/-- The GPS gauges after `countsPhase`: kept on a parse failure, set to the
parsed pair on success, independently of the other two fields. -/
theorem countsPhase_gps (m : MetricState) (g : Gnss) :
    (parse_used_seen g.gpsinfo = none →
      (countsPhase m g).gps_used = m.gps_used ∧ (countsPhase m g).gps_seen = m.gps_seen) ∧
    ∀ p, parse_used_seen g.gpsinfo = some p →
      (countsPhase m g).gps_used = p.1 ∧ (countsPhase m g).gps_seen = p.2 := by
  constructor
  · intro h
    simp only [countsPhase, h]
    cases parse_used_seen g.bdinfo <;> cases parse_used_seen g.glinfo <;> exact ⟨by trivial, by trivial⟩
  · intro p h
    simp only [countsPhase, h]
    cases parse_used_seen g.bdinfo <;> cases parse_used_seen g.glinfo <;> exact ⟨by trivial, by trivial⟩

/-- The BeiDou gauges after `countsPhase`, independent of the other fields. -/
theorem countsPhase_bd (m : MetricState) (g : Gnss) :
    (parse_used_seen g.bdinfo = none →
      (countsPhase m g).bd_used = m.bd_used ∧ (countsPhase m g).bd_seen = m.bd_seen) ∧
    ∀ p, parse_used_seen g.bdinfo = some p →
      (countsPhase m g).bd_used = p.1 ∧ (countsPhase m g).bd_seen = p.2 := by
  constructor
  · intro h
    simp only [countsPhase, h]
    cases parse_used_seen g.gpsinfo <;> cases parse_used_seen g.glinfo <;> exact ⟨by trivial, by trivial⟩
  · intro p h
    simp only [countsPhase, h]
    cases parse_used_seen g.gpsinfo <;> cases parse_used_seen g.glinfo <;> exact ⟨by trivial, by trivial⟩

/-- The GLONASS gauges after `countsPhase`, independent of the other fields.
-/
theorem countsPhase_gl (m : MetricState) (g : Gnss) :
    (parse_used_seen g.glinfo = none →
      (countsPhase m g).gl_used = m.gl_used ∧ (countsPhase m g).gl_seen = m.gl_seen) ∧
    ∀ p, parse_used_seen g.glinfo = some p →
      (countsPhase m g).gl_used = p.1 ∧ (countsPhase m g).gl_seen = p.2 := by
  constructor
  · intro h
    simp only [countsPhase, h]
    cases parse_used_seen g.gpsinfo <;> cases parse_used_seen g.bdinfo <;> exact ⟨by trivial, by trivial⟩
  · intro p h
    simp only [countsPhase, h]
    cases parse_used_seen g.gpsinfo <;> cases parse_used_seen g.bdinfo <;> exact ⟨by trivial, by trivial⟩

/-- A successful `update_metrics` run is `altStep` applied to the
`latLongStep` result. -/
theorem update_metrics_eq (m : MetricState) (g : Gnss) (m' : MetricState)
    (h : update_metrics m g = some m') :
    ∃ mm, latLongStep (countsPhase m g) g.lat g.long = some mm ∧
      m' = altStep mm g.alt := by
  unfold update_metrics at h
  rcases hm : latLongStep (countsPhase m g) g.lat g.long with _ | mm <;> rw [hm] at h
  · exact absurd h (by simp)
  · exact ⟨mm, rfl, ((Option.some.injEq _ _).mp h).symm⟩

/-- Relativity of the hemisphere sign: decoding a value with sign `-1` is the
negation of decoding it with sign `+1`, outcome by outcome. -/
theorem magPart_neg (val : List Char) : magPart (-1) val = pneg (magPart 1 val) := by
  unfold magPart
  rcases splitOnce '.' val with _ | ⟨dm, sc⟩
  · rfl
  · by_cases hl : dm.length < 2
    · simp [hl, pneg]
    · simp only [if_neg hl]
      rcases parseF64 (dm.take (dm.length - 2)) with _ | d
      · rfl
      · rcases parseF64 (dm.drop (dm.length - 2)) with _ | mv
        · rfl
        · rcases parseF64 sc with _ | s
          · rfl
          · simp only [pneg, PResult.ok.injEq]
            ring

/-! ## The claims -/

/-- Claim C1, refuted (code bug): the field parsers are not panic-free and
the request path can abort by panic. `parse_lat_long "N 1.5"` — whose
pre-decimal-point segment `"1"` has fewer than two characters — panics
(`split_at` with an underflowed index), the panic propagates out of
`update_metrics`, and a document missing a required field aborts `handler`
through `.expect`. -/
theorem parse_lat_long_short_integer_part_panics :
    parse_lat_long (String.toList "N 1.5") = .panic ∧
    update_metrics m0
        ⟨String.toList "OK", 7, String.toList "8/12", String.toList "3/5",
          String.toList "0/0", String.toList "N 1.5", String.toList "E 00715.00000",
          String.toList "200 m"⟩ = none ∧
    handler m0 [(String.toList "ant", String.toList "OK")] = none := by
  refine ⟨by decide, by decide, by decide⟩

/-- Claim C2: on a value part of `"4915.12345"` the parser returns, per
variant (b), degrees = the integer-part digits except the last two (`49`),
minutes = the last two integer digits (`15`), seconds = the scaled fraction
(`12.345 = 12345/1000`), combined as `deg + min/60 + sec/3600`; the
hemisphere only fixes the sign, so the magnitude is that value for `N` and
`S` alike. (`f64` arithmetic is modelled exactly over `ℚ`; the claimed
formula and the code compute the same expression, so they agree exactly.) -/
theorem parse_lat_long_seconds_variant :
    parse_lat_long (String.toList "N 4915.12345") =
      .ok (49 + 15 / 60 + (12345 / 1000) / 3600) ∧
    parse_lat_long (String.toList "S 4915.12345") =
      .ok (-(49 + 15 / 60 + (12345 / 1000) / 3600)) := by
  exact ⟨by with_unfolding_all rfl, by with_unfolding_all rfl⟩

/-- Claim C3, counterexample: `"N 0-9.000"` is accepted (the two-character
minutes segment `"-9"` parses as a negative `f64`), yet the returned value
`-(3/20)` is negative although the hemisphere token is `N` — so the sign of
the returned value is not always `+1` on `N`/`E` inputs. -/
theorem sign_rule_counterexample :
    parse_lat_long (String.toList "N 0-9.000") = .ok (-(3 / 20)) ∧
      (-(3 / 20) : ℚ) < 0 := by
  exact ⟨by with_unfolding_all rfl, by norm_num⟩

/-- Claim C3, amended: the hemisphere token contributes exactly a sign
factor — `N` and `E` decode identically, `S` and `W` decode identically, and
the `S`/`W` outcome is the negation of the `N`/`E` outcome on the same value
string (so the returned value itself can still be zero or negative under
`N`/`E` when a numeric segment carries its own minus sign); every other
hemisphere token yields the `MalformedField` error. -/
theorem sign_rule_amended :
    (∀ val : List Char,
        parse_lat_long ('N' :: ' ' :: val) = parse_lat_long ('E' :: ' ' :: val) ∧
        parse_lat_long ('S' :: ' ' :: val) = parse_lat_long ('W' :: ' ' :: val) ∧
        parse_lat_long ('S' :: ' ' :: val) = pneg (parse_lat_long ('N' :: ' ' :: val))) ∧
    ∀ dir val : List Char, ' ' ∉ dir →
      dir ≠ String.toList "N" → dir ≠ String.toList "E" →
      dir ≠ String.toList "S" → dir ≠ String.toList "W" →
      parse_lat_long (dir ++ ' ' :: val) = .err := by
  constructor
  · intro val
    exact ⟨rfl, rfl, magPart_neg val⟩
  · intro dir val hsp h1 h2 h3 h4
    unfold parse_lat_long
    rw [splitOnce_append hsp]
    show (match hemiSign dir with
      | none => PResult.err
      | some sign => magPart sign val) = PResult.err
    have hnone : hemiSign dir = none := by
      unfold hemiSign
      rw [if_neg (not_or.mpr ⟨h1, h2⟩), if_neg (not_or.mpr ⟨h3, h4⟩)]
    rw [hnone]

/-- Witness for the amended C3 at a concrete unrecognized hemisphere token.
-/
theorem sign_rule_amended_witness :
    parse_lat_long (String.toList "Q 4915.12345") = .err :=
  sign_rule_amended.2 (String.toList "Q") (String.toList "4915.12345")
    (by decide) (by decide) (by decide) (by decide) (by decide)

/-- Claim C4: formatting any two `i64` values as `"<u>/<s>"` and parsing the
result returns exactly the pair `(u, s)`; and the parser fails precisely when
the `/` separator is absent or one of the two sides fails `i64` parsing. -/
theorem used_seen_roundtrip :
    (∀ u s : Int, -(2 ^ 63) ≤ u → u ≤ 2 ^ 63 - 1 → -(2 ^ 63) ≤ s → s ≤ 2 ^ 63 - 1 →
        parse_used_seen (fmtInt u ++ '/' :: fmtInt s) = some (u, s)) ∧
    ∀ v : List Char, parse_used_seen v = none ↔
      splitOnce '/' v = none ∨
        ∃ a b, splitOnce '/' v = some (a, b) ∧ (parseI64 a = none ∨ parseI64 b = none) := by
  constructor
  · intro u s hu1 hu2 hs1 hs2
    unfold parse_used_seen
    rw [splitOnce_append (slash_not_mem_fmtInt u)]
    show (match parseI64 (fmtInt u), parseI64 (fmtInt s) with
      | some a, some b => some (a, b)
      | _, _ => none) = some (u, s)
    rw [parseI64_fmtInt u hu1 hu2, parseI64_fmtInt s hs1 hs2]
  · intro v
    rcases hs : splitOnce '/' v with _ | ⟨a, b⟩
    · simp [parse_used_seen, hs]
    · rcases ha : parseI64 a with _ | x <;> rcases hb : parseI64 b with _ | y <;>
        simp [parse_used_seen, hs, ha, hb]
      · exact ⟨a, b, ⟨rfl, rfl⟩, .inl ha⟩
      · exact ⟨a, b, ⟨rfl, rfl⟩, .inl ha⟩
      · exact ⟨a, b, ⟨rfl, rfl⟩, .inr hb⟩

/-- Witness for C4 at the concrete pair (8, 12). -/
theorem used_seen_roundtrip_witness :
    parse_used_seen (fmtInt 8 ++ '/' :: fmtInt 12) = some (8, 12) :=
  used_seen_roundtrip.1 8 12 (by norm_num) (by norm_num) (by norm_num) (by norm_num)

/-- Claim C5: latitude and longitude are updated fail-closed as a pair — on
any run of `update_metrics` that returns (no panic), if either coordinate
parse returns the error outcome then both gauges keep their previous values,
and if both succeed then both gauges hold exactly the two parsed values. -/
theorem lat_long_fail_closed (m : MetricState) (g : Gnss) (m' : MetricState)
    (h : update_metrics m g = some m') :
    ((parse_lat_long g.lat = .err ∨ parse_lat_long g.long = .err) →
      m'.lat = m.lat ∧ m'.long = m.long) ∧
    ∀ x y, parse_lat_long g.lat = .ok x → parse_lat_long g.long = .ok y →
      m'.lat = x ∧ m'.long = y := by
  obtain ⟨mm, hmm, rfl⟩ := update_metrics_eq m g m' h
  have halt_lat : (altStep mm g.alt).lat = mm.lat := by
    rcases altStep_spec mm g.alt with ⟨_, he⟩ | ⟨q, _, he⟩ <;> rw [he]
  have halt_long : (altStep mm g.alt).long = mm.long := by
    rcases altStep_spec mm g.alt with ⟨_, he⟩ | ⟨q, _, he⟩ <;> rw [he]
  rcases latLongStep_spec _ _ _ _ hmm with ⟨rfl, herr⟩ | ⟨x, y, hx, hy, rfl⟩
  · constructor
    · intro _
      rw [halt_lat, halt_long, countsPhase_lat, countsPhase_long]
      exact ⟨rfl, rfl⟩
    · intro x y hx hy
      rcases herr with he | he
      · rw [he] at hx; simp at hx
      · rw [he] at hy; simp at hy
  · constructor
    · intro hor
      rcases hor with he | he
      · rw [hx] at he; simp at he
      · rw [hy] at he; simp at he
    · intro x' y' hx' hy'
      rw [hx] at hx'
      rw [hy] at hy'
      obtain rfl : x = x' := by injection hx'
      obtain rfl : y = y' := by injection hy'
      rw [halt_lat, halt_long]
      exact ⟨rfl, rfl⟩

/-- Witness for C5: a well-formed pair sets both gauges (49.25, 7.25). -/
theorem lat_long_fail_closed_witness :
    update_metrics m0
        ⟨String.toList "OK", 7, String.toList "8/12", String.toList "3/5",
          String.toList "0/0", String.toList "N 4915.00000",
          String.toList "E 00715.00000", String.toList "200 m"⟩ =
      some ⟨1, 7, 8, 12, 3, 5, 0, 0, 197 / 4, 29 / 4, 200⟩ ∧
    (197 / 4 : ℚ) = (⟨1, 7, 8, 12, 3, 5, 0, 0, 197 / 4, 29 / 4, 200⟩ : MetricState).lat ∧
    (29 / 4 : ℚ) = (⟨1, 7, 8, 12, 3, 5, 0, 0, 197 / 4, 29 / 4, 200⟩ : MetricState).long := by
  have hu : update_metrics m0
      ⟨String.toList "OK", 7, String.toList "8/12", String.toList "3/5",
        String.toList "0/0", String.toList "N 4915.00000",
        String.toList "E 00715.00000", String.toList "200 m"⟩ =
      some ⟨1, 7, 8, 12, 3, 5, 0, 0, 197 / 4, 29 / 4, 200⟩ := by
    with_unfolding_all rfl
  have hpair := (lat_long_fail_closed _ _ _ hu).2 (197 / 4) (29 / 4)
    (by with_unfolding_all rfl) (by with_unfolding_all rfl)
  exact ⟨hu, hpair.1.symm, hpair.2.symm⟩

/-- Helper for C6: a successful `update_metrics` run leaves the six
constellation gauges exactly as `countsPhase` set them — neither the lat/long
step nor the altitude step touches them. -/
theorem update_metrics_counts (m : MetricState) (g : Gnss) (m' : MetricState)
    (h : update_metrics m g = some m') :
    m'.gps_used = (countsPhase m g).gps_used ∧ m'.gps_seen = (countsPhase m g).gps_seen ∧
    m'.bd_used = (countsPhase m g).bd_used ∧ m'.bd_seen = (countsPhase m g).bd_seen ∧
    m'.gl_used = (countsPhase m g).gl_used ∧ m'.gl_seen = (countsPhase m g).gl_seen := by
  obtain ⟨mm, hmm, rfl⟩ := update_metrics_eq m g m' h
  have hmm6 : mm.gps_used = (countsPhase m g).gps_used ∧
      mm.gps_seen = (countsPhase m g).gps_seen ∧
      mm.bd_used = (countsPhase m g).bd_used ∧
      mm.bd_seen = (countsPhase m g).bd_seen ∧
      mm.gl_used = (countsPhase m g).gl_used ∧
      mm.gl_seen = (countsPhase m g).gl_seen := by
    rcases latLongStep_spec _ _ _ _ hmm with ⟨rfl, _⟩ | ⟨x, y, _, _, rfl⟩ <;>
      exact ⟨rfl, rfl, rfl, rfl, rfl, rfl⟩
  rcases altStep_spec mm g.alt with ⟨_, he⟩ | ⟨q, _, he⟩ <;> rw [he] <;> exact hmm6

/-- Claim C6: the three per-constellation fields are fail-open and mutually
independent — on any non-panicking run, each constellation's used/seen pair
is kept on its own parse failure and set to its own parsed pair on success,
regardless of what the other two fields contain. -/
theorem constellations_fail_open (m : MetricState) (g : Gnss) (m' : MetricState)
    (h : update_metrics m g = some m') :
    ((parse_used_seen g.gpsinfo = none →
        m'.gps_used = m.gps_used ∧ m'.gps_seen = m.gps_seen) ∧
      ∀ p, parse_used_seen g.gpsinfo = some p →
        m'.gps_used = p.1 ∧ m'.gps_seen = p.2) ∧
    ((parse_used_seen g.bdinfo = none →
        m'.bd_used = m.bd_used ∧ m'.bd_seen = m.bd_seen) ∧
      ∀ p, parse_used_seen g.bdinfo = some p →
        m'.bd_used = p.1 ∧ m'.bd_seen = p.2) ∧
    (parse_used_seen g.glinfo = none →
        m'.gl_used = m.gl_used ∧ m'.gl_seen = m.gl_seen) ∧
      ∀ p, parse_used_seen g.glinfo = some p →
        m'.gl_used = p.1 ∧ m'.gl_seen = p.2 := by
  obtain ⟨e1, e2, e3, e4, e5, e6⟩ := update_metrics_counts m g m' h
  refine ⟨⟨?_, ?_⟩, ⟨?_, ?_⟩, ?_, ?_⟩
  · intro hn
    rw [e1, e2]
    exact (countsPhase_gps m g).1 hn
  · intro p hp
    rw [e1, e2]
    exact (countsPhase_gps m g).2 p hp
  · intro hn
    rw [e3, e4]
    exact (countsPhase_bd m g).1 hn
  · intro p hp
    rw [e3, e4]
    exact (countsPhase_bd m g).2 p hp
  · intro hn
    rw [e5, e6]
    exact (countsPhase_gl m g).1 hn
  · intro p hp
    rw [e5, e6]
    exact (countsPhase_gl m g).2 p hp

/-- Witness for C6: malformed `gpsinfo` leaves the GPS gauges at their prior
zeros while BeiDou and GLONASS are still set in the same request. -/
theorem constellations_fail_open_witness :
    update_metrics m0
        ⟨String.toList "OK", 7, String.toList "x", String.toList "3/5",
          String.toList "0/0", String.toList "x", String.toList "x",
          String.toList "garbage"⟩ =
      some ⟨1, 7, 0, 0, 3, 5, 0, 0, 0, 0, 0⟩ ∧
    (0, 0, 3, 5) = ((⟨1, 7, 0, 0, 3, 5, 0, 0, 0, 0, 0⟩ : MetricState).gps_used,
      (⟨1, 7, 0, 0, 3, 5, 0, 0, 0, 0, 0⟩ : MetricState).gps_seen,
      (⟨1, 7, 0, 0, 3, 5, 0, 0, 0, 0, 0⟩ : MetricState).bd_used,
      (⟨1, 7, 0, 0, 3, 5, 0, 0, 0, 0, 0⟩ : MetricState).bd_seen) := by
  have hu : update_metrics m0
      ⟨String.toList "OK", 7, String.toList "x", String.toList "3/5",
        String.toList "0/0", String.toList "x", String.toList "x",
        String.toList "garbage"⟩ =
      some ⟨1, 7, 0, 0, 3, 5, 0, 0, 0, 0, 0⟩ := by decide
  have hgps := (constellations_fail_open _ _ _ hu).1.1 (by decide)
  have hbd := (constellations_fail_open _ _ _ hu).2.1.2 (3, 5) (by decide)
  refine ⟨hu, ?_⟩
  rw [hgps.1, hgps.2, hbd.1, hbd.2]
  rfl

/-- Claim C7: the altitude decode step strips an optional `" m"` suffix and
parses the remainder — `"123.4 m"` and `"123.4"` both decode to `123.4` —
and on any non-panicking run of `update_metrics`, a remainder that fails to
parse leaves the altitude gauge at its previous value (no error escapes),
while a remainder that parses sets the gauge to that value. -/
theorem altitude_decode_fail_silent :
    parseF64 (trimEndMatches (String.toList " m") (String.toList "123.4 m")) =
      some (1234 / 10) ∧
    parseF64 (trimEndMatches (String.toList " m") (String.toList "123.4")) =
      some (1234 / 10) ∧
    ∀ (m : MetricState) (g : Gnss) (m' : MetricState), update_metrics m g = some m' →
      (parseF64 (trimEndMatches (String.toList " m") g.alt) = none → m'.alt = m.alt) ∧
      ∀ q, parseF64 (trimEndMatches (String.toList " m") g.alt) = some q → m'.alt = q := by
  refine ⟨by with_unfolding_all rfl, by with_unfolding_all rfl, ?_⟩
  intro m g m' h
  obtain ⟨mm, hmm, rfl⟩ := update_metrics_eq m g m' h
  have hmm_alt : mm.alt = m.alt := by
    rcases latLongStep_spec _ _ _ _ hmm with ⟨rfl, _⟩ | ⟨x, y, _, _, rfl⟩ <;>
      exact countsPhase_alt m g
  constructor
  · intro hn
    rcases altStep_spec mm g.alt with ⟨_, he⟩ | ⟨q, hq, he⟩
    · rw [he]
      exact hmm_alt
    · rw [hn] at hq
      simp at hq
  · intro q hq
    rcases altStep_spec mm g.alt with ⟨hn, _⟩ | ⟨q', hq', he⟩
    · rw [hn] at hq
      simp at hq
    · rw [hq'] at hq
      obtain rfl : q' = q := by injection hq
      rw [he]

/-- Witness for C7 at a concrete garbage altitude in a full request: the
resulting state keeps the prior altitude gauge. -/
theorem altitude_decode_fail_silent_witness :
    (⟨1, 7, 0, 0, 3, 5, 0, 0, 0, 0, 0⟩ : MetricState).alt = m0.alt :=
  (altitude_decode_fail_silent.2.2 m0
      ⟨String.toList "OK", 7, String.toList "x", String.toList "3/5",
        String.toList "0/0", String.toList "x", String.toList "x",
        String.toList "garbage"⟩
      ⟨1, 7, 0, 0, 3, 5, 0, 0, 0, 0, 0⟩ (by decide)).1 (by decide)

/-- Claim C8: the antenna status mapper is total — `"OPEN"` maps to 0, `"OK"`
to 1, and every other string (including `"FAULT"`) to the sentinel 2. -/
theorem antenna_status_total :
    antennaCode (String.toList "OPEN") = 0 ∧
    antennaCode (String.toList "OK") = 1 ∧
    antennaCode (String.toList "FAULT") = 2 ∧
    ∀ s : List Char, s ≠ String.toList "OPEN" → s ≠ String.toList "OK" →
      antennaCode s = 2 := by
  refine ⟨by decide, by decide, by decide, ?_⟩
  intro s h1 h2
  unfold antennaCode
  rw [if_neg h1, if_neg h2]

/-- Witness for C8 at a fresh unknown token. -/
theorem antenna_status_total_witness :
    antennaCode (String.toList "SHORT") = 2 :=
  antenna_status_total.2.2.2 (String.toList "SHORT") (by decide) (by decide)

/-- Claim C9, counterexample: a document carrying every field except
`svused` fails to deserialize — `svused` is declared `i64`, not
`Option<i64>`, so it is required and its absence is a `DeserializeError`, not
a success. -/
theorem missing_svused_fails :
    gnssFromFields
        [(String.toList "ant", String.toList "OK"),
          (String.toList "gpsinfo", String.toList "8/12"),
          (String.toList "bdinfo", String.toList "3/5"),
          (String.toList "glinfo", String.toList "0/0"),
          (String.toList "lat", String.toList "N 4915.00000"),
          (String.toList "long", String.toList "E 00715.00000"),
          (String.toList "alt", String.toList "200 m")] = none := by
  decide

/-- Claim C9, amended: `svused` is required, not optional — deserialization
fails with a `DeserializeError` for every document in which the `svused`
field is absent, and succeeds on a document carrying all eight fields with an
integer `svused`. -/
theorem svused_required :
    (∀ fields, lookupField fields (String.toList "svused") = none →
        gnssFromFields fields = none) ∧
    gnssFromFields
        [(String.toList "ant", String.toList "OK"),
          (String.toList "svused", String.toList "7"),
          (String.toList "gpsinfo", String.toList "8/12"),
          (String.toList "bdinfo", String.toList "3/5"),
          (String.toList "glinfo", String.toList "0/0"),
          (String.toList "lat", String.toList "N 4915.00000"),
          (String.toList "long", String.toList "E 00715.00000"),
          (String.toList "alt", String.toList "200 m")] =
      some ⟨String.toList "OK", 7, String.toList "8/12", String.toList "3/5",
        String.toList "0/0", String.toList "N 4915.00000",
        String.toList "E 00715.00000", String.toList "200 m"⟩ := by
  constructor
  · intro fields h
    unfold gnssFromFields
    rw [h]
    cases lookupField fields (String.toList "ant") <;> rfl
  · decide

/-- Witness for the amended C9: the seven-field document has no `svused`
binding, and the theorem maps that absence to a failed deserialization. -/
theorem svused_required_witness :
    gnssFromFields
        [(String.toList "ant", String.toList "OK"),
          (String.toList "gpsinfo", String.toList "8/12"),
          (String.toList "lat", String.toList "N 4915.00000")] = none :=
  svused_required.1 _ (by decide)

/-- Claim C10 (implicit): the fractional part is scaled by a fixed
division by 1000 regardless of how many fractional digits are present —
whatever number `q` the fraction digits parse to, the seconds contribution is
`q / 1000 / 3600`. Hence `"4915.12"` contributes seconds `0.012` while
`"4915.12345"` contributes seconds `12.345`: the intended seconds value is
recovered only with exactly five fractional digits. -/
theorem seconds_fixed_scaling :
    (∀ (fs : List Char) (q : ℚ), parseF64 fs = some q →
        parse_lat_long (String.toList "N 4915." ++ fs) =
          .ok (49 + 15 / 60 + q / 1000 / 3600)) ∧
    parse_lat_long (String.toList "N 4915.12") =
      .ok (49 + 15 / 60 + (12 / 1000) / 3600) ∧
    parse_lat_long (String.toList "N 4915.12345") =
      .ok (49 + 15 / 60 + (12345 / 1000) / 3600) := by
  refine ⟨?_, by with_unfolding_all rfl, by with_unfolding_all rfl⟩
  intro fs q h
  show (match parseF64 ['4', '9'] with
    | none => PResult.err
    | some d =>
      match parseF64 ['1', '5'] with
      | none => PResult.err
      | some mv =>
        match parseF64 fs with
        | none => PResult.err
        | some s => PResult.ok (1 * (d + mv / 60 + s / 1000 / 3600))) =
    PResult.ok (49 + 15 / 60 + q / 1000 / 3600)
  rw [show parseF64 ['4', '9'] = some (49 : ℚ) from by with_unfolding_all rfl,
    show parseF64 ['1', '5'] = some (15 : ℚ) from by with_unfolding_all rfl, h]
  show PResult.ok (1 * (49 + 15 / 60 + q / 1000 / 3600)) = _
  rw [one_mul]

/-- Witness for C10 at the two-digit fraction `"12"`. -/
theorem seconds_fixed_scaling_witness :
    parse_lat_long (String.toList "N 4915." ++ String.toList "12") =
      .ok (49 + 15 / 60 + (12 : ℚ) / 1000 / 3600) :=
  seconds_fixed_scaling.1 (String.toList "12") 12 (by with_unfolding_all rfl)

end GnssExporter
